import Mathlib

/-!
Verification of the data-filtering and aggregation layer of
`final_project.py` (New England Airports Explorer).

The script manipulates a pandas dataframe loaded from
`new_england_airports.csv`.  The embedding models the dataframe as a
`List Record`, one `Record` per row.  A pandas missing cell (NaN) is
modelled as `Option.none`; pandas columns that do not yet exist on the
table (the two derived columns added only at the very end of the script,
lines 161-162) are modelled as `Option`-valued fields that are `none`
until the derived-column step runs.
-/

namespace NEAirports

/-- One row of the airport table: the columns of the CSV that
`final_project.py` uses, plus the two derived columns.  `municipality`
and `elevation_ft` may be missing (pandas NaN = `none`); `latitude_deg`
and `longitude_deg` may be missing before the load-time `dropna`.
`name_length` and `high_altitude` are `none` while the derived columns
(lines 161-162) have not been added to the table. -/
structure Record where
  name : String
  municipality : Option String
  iso_region : String
  type : String
  scheduled_service : String
  elevation_ft : Option Int
  latitude_deg : Option Rat
  longitude_deg : Option Rat
  name_length : Option Nat
  high_altitude : Option Bool
  deriving DecidableEq

/-- Line 24: `data.dropna(subset=['latitude_deg', 'longitude_deg'])` —
drop every row where latitude or longitude is missing. -/
def load (raw : List Record) : List Record :=
  raw.filter (fun r => r.latitude_deg.isSome && r.longitude_deg.isSome)

/-- pandas `Series.max()` with the default `skipna=True` over an
`elevation_ft`-like column: the maximum of the non-missing entries, and
NaN (here `none`) when there is no non-missing entry. -/
def seriesMax (l : List (Option Int)) : Option Int :=
  l.foldr
    (fun x acc =>
      match x, acc with
      | none, a => a
      | some e, none => some e
      | some e, some a => some (max e a))
    none

/-- Lines 46-50:
`region_summary(df, region='US-CT')` returns
`(subset.shape[0], subset['elevation_ft'].max())` where
`subset = df[df['iso_region'] == region]`. -/
def region_summary (df : List Record) (region : String := "US-CT") :
    Nat × Option Int :=
  let subset := df.filter (fun r => r.iso_region == region)
  (subset.length, seriesMax (subset.map (fun r => r.elevation_ft)))

/-- Line 63: `data[data['iso_region'] == selected_region]` — one-condition
filter by exact region-code match. -/
def filter_by_region (df : List Record) (region : String) : List Record :=
  df.filter (fun r => r.iso_region == region)

/-- Line 80: `region_airports[region_airports['municipality'] == selected_city]`
applied after the region filter — two-condition filter.  A missing
municipality (NaN) never equals a string in pandas, hence the comparison
with `some city`. -/
def filter_by_region_and_city (df : List Record) (region city : String) :
    List Record :=
  (filter_by_region df region).filter (fun r => r.municipality == some city)

/-- Lines 60 and 64: `sorted(column.dropna().unique())` — the distinct
non-missing values of a field, sorted ascending.  Python's `sorted` is an
ascending stable sort; on the duplicate-free output of `unique()` it
yields the strictly ascending enumeration.  A total column (such as
`iso_region` on line 60) is accessed through `fun r => some r.iso_region`. -/
def distinct_sorted (df : List Record) (field : Record → Option String) :
    List String :=
  List.insertionSort (fun a b => a ≤ b) (df.filterMap field).dedup

/-- The key order used by `sort_values(by='elevation_ft', ascending=...)` on
an optional numeric column: pandas sorts the non-NaN values in the requested
direction and places NaN rows last (`na_position='last'`, the default) in
either direction. -/
def naLastBLE (descending : Bool) : Option Int → Option Int → Bool
  | some x, some y => if descending then decide (y ≤ x) else decide (x ≤ y)
  | some _, none => true
  | none, some _ => false
  | none, none => true

/-- Line 103: `data.sort_values(by='elevation_ft', ascending=False)` with
the default `kind='quicksort'`.  pandas documents that only `mergesort`
and `stable` are stable kinds, so the order of tied rows is not
specified: the call is modelled relationally, as the set of outputs
consistent with its contract — a permutation of the input that is sorted
by the key in the requested direction with NaN keys last. -/
def SortValuesSpec (key : Record → Option Int) (descending : Bool)
    (df out : List Record) : Prop :=
  df.Perm out ∧
    out.Pairwise (fun a b => naLastBLE descending (key a) (key b) = true)

/-- Line 103: `data.sort_values(by='elevation_ft', ascending=False).head(10)` —
sort (relationally, see `SortValuesSpec`) and keep the first `n` rows.
The script only exercises `n = 10`, descending, on `elevation_ft`; the
parameters are the spec's generalisation of the same code. -/
def TopNBySpec (key : Record → Option Int) (df out : List Record)
    (n : Nat := 10) (descending : Bool := true) : Prop :=
  ∃ s, SortValuesSpec key descending df s ∧ out = s.take n

/-- The stable descending sort demanded by the claim's words ("stable
sort; ties broken by original insertion order"): `List.insertionSort` is
stable, so this is the reference the code's relational sort is compared
against. -/
def stableSortByKey (key : Record → Option Int) (descending : Bool)
    (df : List Record) : List Record :=
  List.insertionSort (fun a b => naLastBLE descending (key a) (key b) = true) df

/-- Line 116:
`pd.pivot_table(data, index='iso_region', columns='type', aggfunc='size', fill_value=0)` —
the cell at `(r, c)` counts the rows whose row-field equals `r` and whose
column-field equals `c`; `fill_value=0` makes absent combinations read 0. -/
def pivotCount (df : List Record) (rowF colF : Record → String)
    (r c : String) : Nat :=
  df.countP (fun x => rowF x == r && colF x == c)

/-- The observed distinct values of a categorical field — the index (resp.
column) labels of the pivot table produced on line 116. -/
def observedVals (df : List Record) (f : Record → String) : Finset String :=
  (df.map f).toFinset

/-- The error taxonomy named by the spec (§7). -/
inductive DatasetError
  | dataSourceNotFound
  | dataLoadError
  | emptyDatasetError
  deriving DecidableEq

/-- pandas `Series.mean()` over a numeric column: the arithmetic mean of
the non-missing entries, and NaN (`none`) when there is no non-missing
entry — in particular on an empty column.  `Series.mean()` never raises
on emptiness. -/
def seriesMean (l : List (Option Rat)) : Option Rat :=
  let vs := l.filterMap id
  if vs.length = 0 then none else some (vs.sum / (vs.length : Rat))

/-- Lines 126-127: `data['latitude_deg'].mean(), data['longitude_deg'].mean()`
as fed to `pdk.ViewState`.  The result type carries the spec's error
channel (`DatasetError`) so that raising and not raising are both
expressible; the code's computation never raises — pandas returns NaN on
an empty column — so every outcome is `Except.ok`. -/
def mean_coordinate (df : List Record) :
    Except DatasetError (Option Rat × Option Rat) :=
  Except.ok
    (seriesMean (df.map (fun r => r.latitude_deg)),
      seriesMean (df.map (fun r => r.longitude_deg)))

/-- Line 162's comparison `data['elevation_ft'] > 2000`: pandas compares a
NaN cell with a number as False, so a missing elevation is classified
`false`, not missing. -/
def seriesGtNaN (x : Option Int) (c : Int) : Bool :=
  match x with
  | none => false
  | some v => c < v

/-- Lines 161-162:
`data['name_length'] = data['name'].apply(len)` and
`data['high_altitude'] = data['elevation_ft'] > 2000` — the one-time
derived-column pass over the table. -/
def addDerivedColumns (df : List Record) : List Record :=
  df.map (fun r =>
    { r with
      name_length := some r.name.length
      high_altitude := some (seriesGtNaN r.elevation_ft 2000) })

/-- The table the query operations of the script observe.  The script
runs top to bottom: the load (lines 21-30) precedes every query
(lines 52-142), and the derived-column pass (lines 161-162) comes after
all of them, so the queries see exactly the loaded table. -/
def scriptDataAtQueries (raw : List Record) : List Record :=
  load raw

/-- The table as it stands when the script finishes: the loaded table
with the two derived columns attached (lines 161-162). -/
def scriptDataFinal (raw : List Record) : List Record :=
  addDerivedColumns (load raw)

/-- A concrete well-formed row (all coordinates present, derived columns
absent, as in the CSV) used for witnesses and counterexamples. -/
def rec0 : Record :=
  { name := "Logan International"
    municipality := some "Boston"
    iso_region := "US-MA"
    type := "large_airport"
    scheduled_service := "yes"
    elevation_ft := some 20
    latitude_deg := some 42
    longitude_deg := some (-71)
    name_length := none
    high_altitude := none }

/-- A second concrete row, same elevation as `rec0` but a different name:
a tie for the sorting claims. -/
def rec1 : Record :=
  { name := "Hanscom Field"
    municipality := some "Bedford"
    iso_region := "US-MA"
    type := "medium_airport"
    scheduled_service := "no"
    elevation_ft := some 20
    latitude_deg := some 42
    longitude_deg := some (-71)
    name_length := none
    high_altitude := none }

/-- A concrete row with a missing elevation. -/
def rec2 : Record :=
  { name := "Seaplane Base"
    municipality := none
    iso_region := "US-ME"
    type := "seaplane_base"
    scheduled_service := "no"
    elevation_ft := none
    latitude_deg := some 44
    longitude_deg := some (-69)
    name_length := none
    high_altitude := none }

/-- Unfolding lemma for `seriesMax` on a cons cell. -/
theorem seriesMax_cons (x : Option Int) (xs : List (Option Int)) :
    seriesMax (x :: xs) =
      match x, seriesMax xs with
      | none, a => a
      | some e, none => some e
      | some e, some a => some (max e a) := rfl

/-- `seriesMax` returns the NaN sentinel exactly when the column has no
non-missing entry. -/
theorem seriesMax_eq_none (l : List (Option Int)) :
    seriesMax l = none ↔ ∀ x ∈ l, x = none := by
  induction l with
  | nil => simp [seriesMax]
  | cons x xs ih =>
    rw [seriesMax_cons]
    cases x with
    | none => simpa using ih
    | some e =>
      cases h : seriesMax xs with
      | none => simp
      | some a => simp

/-- When `seriesMax` returns a value, that value occurs in the column and
bounds every non-missing entry. -/
theorem seriesMax_eq_some (l : List (Option Int)) :
    ∀ m : Int, seriesMax l = some m →
      some m ∈ l ∧ ∀ e : Int, some e ∈ l → e ≤ m := by
  induction l with
  | nil => intro m h; simp [seriesMax] at h
  | cons x xs ih =>
    intro m
    rw [seriesMax_cons]
    cases x with
    | none =>
      intro h
      rcases ih m h with ⟨hmem, hbd⟩
      refine ⟨List.mem_cons_of_mem _ hmem, ?_⟩
      intro e he
      rcases List.mem_cons.mp he with h1 | h2
      · exact absurd h1 (by simp)
      · exact hbd e h2
    | some a =>
      cases h : seriesMax xs with
      | none =>
        intro hm
        have ha : a = m := Option.some.inj hm
        subst ha
        refine ⟨List.mem_cons_self _ _, ?_⟩
        intro e he
        rcases List.mem_cons.mp he with h1 | h2
        · exact le_of_eq (Option.some.inj h1)
        · have := (seriesMax_eq_none xs).mp h _ h2
          simp at this
      | some b =>
        intro hm
        have hab : max a b = m := Option.some.inj hm
        rcases ih b h with ⟨hmemb, hbdb⟩
        constructor
        · rcases max_choice a b with hc | hc
          · rw [← hab, hc]; exact List.mem_cons_self _ _
          · rw [← hab, hc]; exact List.mem_cons_of_mem _ hmemb
        · intro e he
          rcases List.mem_cons.mp he with h1 | h2
          · have : e = a := Option.some.inj h1
            rw [this, ← hab]; exact le_max_left a b
          · exact le_trans (hbdb e h2) (hab ▸ le_max_right a b)

/-- C1: `region_summary df region` returns the number of records whose
region code equals the argument together with the maximum `elevation_ft`
over that subset; on an empty subset the maximum is the undefined
sentinel `none` (never `some 0`, never a number), and a returned value is
a true maximum: it is attained and bounds every non-missing elevation of
the subset. -/
theorem region_summary_count_and_max (df : List Record) (region : String) :
    (region_summary df region).1 =
        (df.filter (fun r => r.iso_region == region)).length ∧
      (df.filter (fun r => r.iso_region == region) = [] →
        (region_summary df region).2 = none) ∧
      ((region_summary df region).2 = none →
        ∀ r ∈ df.filter (fun r => r.iso_region == region),
          r.elevation_ft = none) ∧
      ∀ m : Int, (region_summary df region).2 = some m →
        (∃ r ∈ df.filter (fun r => r.iso_region == region),
            r.elevation_ft = some m) ∧
          ∀ r ∈ df.filter (fun r => r.iso_region == region),
            ∀ e : Int, r.elevation_ft = some e → e ≤ m := by
  refine ⟨rfl, ?_, ?_, ?_⟩
  · intro h
    show seriesMax ((df.filter (fun r => r.iso_region == region)).map
      (fun r => r.elevation_ft)) = none
    rw [h]
    rfl
  · intro h r hr
    have hm : r.elevation_ft ∈ (df.filter (fun r => r.iso_region == region)).map
        (fun r => r.elevation_ft) :=
      List.mem_map.mpr ⟨r, hr, rfl⟩
    exact (seriesMax_eq_none _).mp h _ hm
  · intro m hm
    rcases seriesMax_eq_some _ m hm with ⟨hmem, hbd⟩
    constructor
    · rcases List.mem_map.mp hmem with ⟨r, hr, hre⟩
      exact ⟨r, hr, hre⟩
    · intro r hr e hre
      exact hbd e (List.mem_map.mpr ⟨r, hr, hre⟩)

/-- Witness for C1 at a concrete input: the subset for region `US-XX` of
a one-row table is empty, and the maximum is reported as the `none`
sentinel. -/
theorem region_summary_count_and_max_witness :
    (region_summary [rec0] "US-XX").2 = none :=
  (region_summary_count_and_max [rec0] "US-XX").2.1 (by decide)

/-- C8: calling `region_summary` without the region argument is the same
call as passing the default `"US-CT"` explicitly, and a second call with
a different explicit region (as on lines 52-53 of the script) yields its
own correct, independent count. -/
theorem region_summary_default_call (df : List Record) :
    region_summary df = region_summary df "US-CT" ∧
      (region_summary df).1 =
        (df.filter (fun r => r.iso_region == "US-CT")).length ∧
      (region_summary df "US-MA").1 =
        (df.filter (fun r => r.iso_region == "US-MA")).length ∧
      (region_summary df "US-MA").2 =
        seriesMax ((df.filter (fun r => r.iso_region == "US-MA")).map
          (fun r => r.elevation_ft)) :=
  ⟨rfl, rfl, rfl, rfl⟩

/-- C9: the two-condition filter is a sublist — hence a subset — of the
one-condition region filter; every record it keeps matches both
conditions exactly; and an empty result is an ordinary value of the
function, holding precisely when no region-matching record bears the
municipality. -/
theorem filter_region_city_subset (df : List Record) (region city : String) :
    (filter_by_region_and_city df region city).Sublist
        (filter_by_region df region) ∧
      (∀ r ∈ filter_by_region_and_city df region city,
        r ∈ filter_by_region df region ∧
          r.iso_region = region ∧ r.municipality = some city) ∧
      (filter_by_region_and_city df region city = [] ↔
        ∀ r ∈ filter_by_region df region, r.municipality ≠ some city) := by
  refine ⟨List.filter_sublist _, ?_, ?_⟩
  · intro r hr
    rcases List.mem_filter.mp hr with ⟨hr1, hr2⟩
    rcases List.mem_filter.mp hr1 with ⟨_, hreg⟩
    exact ⟨hr1, by simpa using hreg, by simpa using hr2⟩
  · show (filter_by_region df region).filter
        (fun r => r.municipality == some city) = [] ↔ _
    rw [List.filter_eq_nil_iff]
    constructor
    · intro h r hr
      have := h r hr
      simpa using this
    · intro h r hr
      simpa using h r hr

/-- Witness for C9 at a concrete input: the record surviving the
two-condition filter of a one-row table is in the region filter. -/
theorem filter_region_city_subset_witness :
    rec0 ∈ filter_by_region [rec0] "US-MA" :=
  (((filter_region_city_subset [rec0] "US-MA" "Boston").2.1 rec0
    (by decide))).1

/-- C3: every record that survives the load has both coordinates
present, and the invariant persists through the operations run after the
load: the derived-column pass and both filters return only records with
both coordinates present (no operation rebuilds or drops a coordinate of
the canonical table). -/
theorem load_coordinate_invariant (raw : List Record) :
    (∀ r ∈ load raw,
        r.latitude_deg.isSome = true ∧ r.longitude_deg.isSome = true) ∧
      (∀ r ∈ addDerivedColumns (load raw),
        r.latitude_deg.isSome = true ∧ r.longitude_deg.isSome = true) ∧
      (∀ region, ∀ r ∈ filter_by_region (load raw) region,
        r.latitude_deg.isSome = true ∧ r.longitude_deg.isSome = true) ∧
      ∀ region city, ∀ r ∈ filter_by_region_and_city (load raw) region city,
        r.latitude_deg.isSome = true ∧ r.longitude_deg.isSome = true := by
  have hload : ∀ r ∈ load raw,
      r.latitude_deg.isSome = true ∧ r.longitude_deg.isSome = true := by
    intro r hr
    rcases List.mem_filter.mp hr with ⟨_, hp⟩
    exact Bool.and_eq_true_iff.mp hp
  refine ⟨hload, ?_, ?_, ?_⟩
  · intro r hr
    rcases List.mem_map.mp hr with ⟨r0, hr0, rfl⟩
    exact hload r0 hr0
  · intro region r hr
    exact hload r (List.mem_filter.mp hr).1
  · intro region city r hr
    exact hload r (List.mem_filter.mp (List.mem_filter.mp hr).1).1

/-- Witness for C3 at a concrete input: the single row of a one-row raw
table survives the load with both coordinates present. -/
theorem load_coordinate_invariant_witness :
    rec0.latitude_deg.isSome = true ∧ rec0.longitude_deg.isSome = true :=
  (load_coordinate_invariant [rec0]).1 rec0 (by decide)

/-- C10: after the derived-column pass, a record whose `elevation_ft` is
missing has `high_altitude = some false`: the pandas comparison
`NaN > 2000` evaluates to False, so a missing elevation is classified as
not high-altitude rather than as missing or as an error. -/
theorem high_altitude_false_on_missing_elevation (df : List Record) :
    ∀ r ∈ addDerivedColumns df,
      r.elevation_ft = none → r.high_altitude = some false := by
  intro r hr hnone
  rcases List.mem_map.mp hr with ⟨r0, _, rfl⟩
  have h0 : r0.elevation_ft = none := hnone
  simp [seriesGtNaN, h0]

/-- Witness for C10 at a concrete input: the derived image of the
elevation-less `rec2` is classified `high_altitude = some false`. -/
theorem high_altitude_false_on_missing_elevation_witness :
    ({ rec2 with
        name_length := some rec2.name.length
        high_altitude := some (seriesGtNaN rec2.elevation_ft 2000)
      } : Record).high_altitude = some false :=
  high_altitude_false_on_missing_elevation [rec2] _ (by decide) (by decide)

/-- pandas `Series.mean()` of a one-cell column is that cell (NaN when
the cell is missing). -/
theorem seriesMean_single (x : Option Rat) : seriesMean [x] = x := by
  cases x with
  | none => rfl
  | some a =>
    show seriesMean [some a] = some a
    simp [seriesMean]

/-- C2 counterexample: on the empty dataset the script's viewport-centre
computation (pandas `Series.mean()` of the coordinate columns) returns
the NaN pair; it does not raise `EmptyDatasetError` — no code path of
lines 126-127 raises at all. -/
theorem mean_coordinate_empty_is_nan_not_error :
    mean_coordinate [] =
        Except.ok ((none : Option Rat), (none : Option Rat)) ∧
      mean_coordinate [] ≠
        Except.error DatasetError.emptyDatasetError :=
  ⟨rfl, fun h => Except.noConfusion h⟩

/-- C2 amended: the mean computation never raises: on the empty dataset
it yields the NaN sentinel pair, and on a single-record dataset it yields
exactly that record's coordinates. -/
theorem mean_coordinate_empty_and_single (r : Record) :
    mean_coordinate [] =
        Except.ok ((none : Option Rat), (none : Option Rat)) ∧
      mean_coordinate [r] = Except.ok (r.latitude_deg, r.longitude_deg) := by
  refine ⟨rfl, ?_⟩
  show Except.ok (seriesMean [r.latitude_deg], seriesMean [r.longitude_deg]) =
    Except.ok (r.latitude_deg, r.longitude_deg)
  rw [seriesMean_single, seriesMean_single]

/-- C4 counterexample: the table observed by the script's query
operations is the bare loaded table.  On the concrete one-row table the
record the queries see still has `name_length = none` and
`high_altitude = none` — not the derived values — because the
derived-column pass sits at lines 161-162, after every query of the
script run. -/
theorem derived_columns_not_seen_by_queries :
    scriptDataAtQueries [rec0] = [rec0] ∧
      rec0.name_length = none ∧
      (none : Option Nat) ≠ some rec0.name.length ∧
      rec0.high_altitude = none :=
  ⟨by decide, rfl, by decide, rfl⟩

/-- C4 amended: `name_length` and `high_altitude` are computed exactly
once per script run, but at the end of the script — after every query
operation: the queries observe the bare loaded table, and only the final
table carries the derived attributes, with their documented values. -/
theorem derived_columns_once_at_script_end (raw : List Record) :
    scriptDataAtQueries raw = load raw ∧
      scriptDataFinal raw = addDerivedColumns (scriptDataAtQueries raw) ∧
      ∀ r ∈ scriptDataFinal raw,
        r.name_length = some r.name.length ∧
          r.high_altitude = some (seriesGtNaN r.elevation_ft 2000) := by
  refine ⟨rfl, rfl, ?_⟩
  intro r hr
  rcases List.mem_map.mp hr with ⟨r0, _, rfl⟩
  exact ⟨rfl, rfl⟩

/-- Witness for the amended C4 at a concrete input: the derived image of
`rec0` in the final table carries both derived attributes. -/
theorem derived_columns_once_at_script_end_witness :
    ({ rec0 with
        name_length := some rec0.name.length
        high_altitude := some (seriesGtNaN rec0.elevation_ft 2000)
      } : Record).name_length = some rec0.name.length ∧
      ({ rec0 with
        name_length := some rec0.name.length
        high_altitude := some (seriesGtNaN rec0.elevation_ft 2000)
      } : Record).high_altitude =
        some (seriesGtNaN rec0.elevation_ft 2000) :=
  (derived_columns_once_at_script_end [rec0]).2.2
    { rec0 with
      name_length := some rec0.name.length
      high_altitude := some (seriesGtNaN rec0.elevation_ft 2000) }
    (by decide)

/-- C7: `distinct_sorted` is strictly ascending — hence duplicate-free —
and contains exactly the values that the field takes on non-missing
cells: missing values are excluded, present values all appear. -/
theorem distinct_sorted_strict_and_complete (df : List Record)
    (field : Record → Option String) :
    (distinct_sorted df field).Pairwise (fun a b => a < b) ∧
      ∀ a : String,
        a ∈ distinct_sorted df field ↔ ∃ r ∈ df, field r = some a := by
  constructor
  · have hsorted : (distinct_sorted df field).Sorted (fun a b => a ≤ b) :=
      List.sorted_insertionSort _ _
    have hnodup : (distinct_sorted df field).Nodup :=
      ((List.perm_insertionSort _ _).nodup_iff).mpr (List.nodup_dedup _)
    exact List.Sorted.lt_of_le hsorted hnodup
  · intro a
    show a ∈ List.insertionSort (fun a b => a ≤ b)
      (df.filterMap field).dedup ↔ _
    rw [(List.perm_insertionSort _ _).mem_iff, List.mem_dedup,
      List.mem_filterMap]

/-- Witness for C7 at a concrete input: the municipality of the single
record appears in the distinct sorted municipality list. -/
theorem distinct_sorted_strict_and_complete_witness :
    "Boston" ∈ distinct_sorted [rec0] (fun r => r.municipality) :=
  ((distinct_sorted_strict_and_complete [rec0]
    (fun r => r.municipality)).2 "Boston").mpr ⟨rec0, by decide, rfl⟩

/-- C5 counterexample: with two rows tied on `elevation_ft`, the reversed
order also satisfies the `sort_values` contract — the default
`kind='quicksort'` is documented as not stable — so the code does not
guarantee the stable, insertion-order tie-breaking the claim asserts: an
admissible output differs from the stable reference order. -/
theorem top_n_not_stable_on_ties :
    TopNBySpec (fun r => r.elevation_ft) [rec0, rec1] [rec1, rec0] ∧
      [rec1, rec0] ≠
        (stableSortByKey (fun r => r.elevation_ft) true [rec0, rec1]).take 10 := by
  constructor
  · exact ⟨[rec1, rec0], ⟨List.Perm.swap rec1 rec0 [], by decide⟩, rfl⟩
  · decide

/-- C5 amended: every output admitted by
`sort_values(by=field, ascending=...).head(n)` has length `min n |df|`,
is ordered by the key in the requested direction with missing keys last,
and the parameters default to `n = 10`, descending; the relative order of
tied rows is not specified by the code. -/
theorem top_n_length_and_order (key : Record → Option Int)
    (df out : List Record) (n : Nat) (descending : Bool)
    (h : TopNBySpec key df out n descending) :
    out.length = min n df.length ∧
      out.Pairwise
        (fun a b => naLastBLE descending (key a) (key b) = true) ∧
      TopNBySpec key df out = TopNBySpec key df out 10 true := by
  rcases h with ⟨s, ⟨hperm, hsort⟩, rfl⟩
  refine ⟨?_, ?_, rfl⟩
  · rw [List.length_take, hperm.length_eq]
  · exact List.Pairwise.sublist (List.take_sublist _ _) hsort

/-- Witness for the amended C5 at a concrete input: the identity output
on a one-row table satisfies the contract and the proved properties. -/
theorem top_n_length_and_order_witness :
    ([rec0] : List Record).length = min 10 ([rec0] : List Record).length ∧
      ([rec0] : List Record).Pairwise
        (fun a b => naLastBLE true a.elevation_ft b.elevation_ft = true) ∧
      TopNBySpec (fun r => r.elevation_ft) [rec0] [rec0] =
        TopNBySpec (fun r => r.elevation_ft) [rec0] [rec0] 10 true :=
  top_n_length_and_order (fun r => r.elevation_ft) [rec0] [rec0] 10 true
    ⟨[rec0], ⟨List.Perm.refl _, by decide⟩, rfl⟩

/-- A one-dimensional indicator sum over a finite set collapses to 1 at a
member. -/
theorem sum_indicator_eq_one (s : Finset String) (a : String) (h : a ∈ s) :
    (∑ x ∈ s, if a = x then (1 : Nat) else 0) = 1 := by
  rw [Finset.sum_ite_eq]
  simp [h]

/-- A two-dimensional indicator sum over a cross-product collapses to 1
at a member pair. -/
theorem sum_double_indicator_eq_one (R C : Finset String) (u v : String)
    (hu : u ∈ R) (hv : v ∈ C) :
    (∑ r ∈ R, ∑ c ∈ C, if u = r ∧ v = c then (1 : Nat) else 0) = 1 := by
  have hinner : ∀ r : String,
      (∑ c ∈ C, if u = r ∧ v = c then (1 : Nat) else 0) =
        if u = r then 1 else 0 := by
    intro r
    by_cases hr : u = r
    · subst hr
      simp only [eq_self_iff_true, true_and, if_true]
      exact sum_indicator_eq_one C v hv
    · simp [hr]
  calc (∑ r ∈ R, ∑ c ∈ C, if u = r ∧ v = c then (1 : Nat) else 0)
      = ∑ r ∈ R, if u = r then 1 else 0 :=
        Finset.sum_congr rfl (fun r _ => hinner r)
    _ = 1 := sum_indicator_eq_one R u hu

/-- Partition of a record count over a grid of cells: when every record
of the table lands in the grid, the per-cell counts sum to the table
length. -/
theorem countP_grid_sum (rowF colF : Record → String) (R C : Finset String) :
    ∀ df : List Record, (∀ x ∈ df, rowF x ∈ R ∧ colF x ∈ C) →
      (∑ r ∈ R, ∑ c ∈ C,
        df.countP (fun x => rowF x == r && colF x == c)) = df.length := by
  intro df
  induction df with
  | nil => intro _; simp
  | cons x xs ih =>
    intro hmem
    have hx := hmem x (List.mem_cons_self _ _)
    have hxs : ∀ y ∈ xs, rowF y ∈ R ∧ colF y ∈ C := fun y hy =>
      hmem y (List.mem_cons_of_mem _ hy)
    have hone : (∑ r ∈ R, ∑ c ∈ C,
        if (rowF x == r && colF x == c) = true then (1 : Nat) else 0) = 1 := by
      have h1 : ∀ r c : String,
          (if (rowF x == r && colF x == c) = true then (1 : Nat) else 0) =
            if rowF x = r ∧ colF x = c then 1 else 0 := by
        intro r c
        by_cases h : rowF x = r ∧ colF x = c
        · rw [if_pos h, if_pos (by simp [h.1, h.2])]
        · rw [if_neg h,
            if_neg (by simpa [Bool.and_eq_true, beq_iff_eq] using h)]
      calc (∑ r ∈ R, ∑ c ∈ C,
            if (rowF x == r && colF x == c) = true then (1 : Nat) else 0)
          = ∑ r ∈ R, ∑ c ∈ C,
              if rowF x = r ∧ colF x = c then (1 : Nat) else 0 :=
            Finset.sum_congr rfl (fun r _ =>
              Finset.sum_congr rfl (fun c _ => h1 r c))
        _ = 1 := sum_double_indicator_eq_one R C (rowF x) (colF x) hx.1 hx.2
    simp only [List.countP_cons, List.length_cons, Finset.sum_add_distrib]
    rw [ih hxs, hone]

/-- C6: the pivot is a dense grid: every cell counts exactly the records
with that (row value, column value) pair, a cell is 0 exactly when no
record has the pair (absent combinations read 0, never missing), every
cell is non-negative, and the cells over the observed row and column
values sum to the total record count. -/
theorem pivot_count_dense_grid (df : List Record)
    (rowF colF : Record → String) :
    (∀ r c : String, pivotCount df rowF colF r c =
        (df.filter (fun x => rowF x == r && colF x == c)).length) ∧
      (∀ r c : String,
        pivotCount df rowF colF r c = 0 ↔
          ∀ x ∈ df, ¬(rowF x = r ∧ colF x = c)) ∧
      (∀ r c : String, 0 ≤ pivotCount df rowF colF r c) ∧
      (∑ r ∈ observedVals df rowF, ∑ c ∈ observedVals df colF,
        pivotCount df rowF colF r c) = df.length := by
  refine ⟨?_, ?_, ?_, ?_⟩
  · intro r c
    exact List.countP_eq_length_filter _ _
  · intro r c
    show List.countP (fun x => rowF x == r && colF x == c) df = 0 ↔ _
    rw [List.countP_eq_zero]
    constructor
    · intro h x hx
      simpa [Bool.and_eq_true, beq_iff_eq] using h x hx
    · intro h x hx
      simpa [Bool.and_eq_true, beq_iff_eq] using h x hx
  · intro r c
    exact Nat.zero_le _
  · apply countP_grid_sum
    intro x hx
    exact ⟨List.mem_toFinset.mpr (List.mem_map.mpr ⟨x, hx, rfl⟩),
      List.mem_toFinset.mpr (List.mem_map.mpr ⟨x, hx, rfl⟩)⟩

/-- Witness for C6 at a concrete input: a cell of the grid with no
matching record reads 0. -/
theorem pivot_count_dense_grid_witness :
    pivotCount [rec0] (fun r => r.iso_region) (fun r => r.type)
      "US-VT" "heliport" = 0 :=
  ((pivot_count_dense_grid [rec0] (fun r => r.iso_region)
    (fun r => r.type)).2.1 "US-VT" "heliport").mpr (by decide)

end NEAirports
